import Mathlib

/-!
Verification of the OpenPipe Python client SDK.

This file gives a shallow embedding of the repository's Python sources:

* `openpipe/shared.py` — the convenience layer (`_get_tags`,
  `_should_check_cache`, `_process_cache_payload`, `maybe_check_cache`,
  `maybe_check_cache_async`, `report`, `report_async`);
* four generated model classes under `openpipe/api_client/models/`
  with their `to_dict` / `from_dict` pairs.

Python runtime values are embedded as the inductive `Json`; Python dicts are
association lists `PyDict` with the dict operations (`get`, `pop`, item
assignment) translated so that key lookup, in-place update and insertion
order match CPython semantics.  Python exceptions are `Except PyErr`.
For the claims about in-place mutation visible to the caller, dicts are
additionally threaded through an explicit object heap `Heap`, where a Python
object reference is a `Nat` address and `dict.copy()` is an allocation.

Generated classes that the repository references but whose files are not
under `src/` (the `UNSET` sentinel, the additional-properties wrapper
classes, the content-part `type` enum, `CheckCacheResponse200`,
`ReportJsonBodyTags`, and the request-body classes built in `shared.py`)
are modelled from the specification; each such definition carries a doc
comment starting with `Modelled from the spec:`.
-/

/-- A Python runtime value as it appears in (de)serialized JSON bodies:
`None`, booleans, strings, numbers, lists and dicts. -/
inductive Json where
  | null : Json
  | bool (b : Bool) : Json
  | str (s : String) : Json
  | num (n : Int) : Json
  | arr (elems : List Json) : Json
  | obj (fields : List (String × Json)) : Json

/-- A Python exception, as far as the embedded code distinguishes them.
`keyError k` is the `KeyError` raised by `dict.pop(k)` on a missing key
(the spec's `MissingField` condition); `valueError` is raised by an enum
constructor on an unrecognized value (the spec's `UnrecognizedVariant`);
`attributeError` by calling `.copy()` on a non-dict; `otherError` stands
for any other exception (network failure, non-2xx status, and so on). -/
inductive PyErr where
  | keyError (key : String) : PyErr
  | valueError (msg : String) : PyErr
  | attributeError (msg : String) : PyErr
  | otherError (msg : String) : PyErr

/-- A Python dict with string keys, embedded as an association list kept in
insertion order (CPython dicts preserve insertion order). -/
abbrev PyDict (V : Type) : Type := List (String × V)

namespace PyDict

/-- Python `d.get(k)` / `d[k]` lookup: value at the key, if present. -/
def aget {V : Type} : PyDict V → String → Option V
  | [], _ => none
  | (k', v) :: rest, k => if k' = k then some v else aget rest k

/-- Python `d[k] = v`: replace the value in place if the key is present
(keeping its position), otherwise append the new pair at the end. -/
def ainsert {V : Type} : PyDict V → String → V → PyDict V
  | [], k, v => [(k, v)]
  | (k', v') :: rest, k, v =>
      if k' = k then (k, v) :: rest else (k', v') :: ainsert rest k v

/-- Python `d.pop(k)` without a default: `none` models the `KeyError`
branch; otherwise the value together with the dict with that key removed. -/
def apop {V : Type} : PyDict V → String → Option (V × PyDict V)
  | [], _ => none
  | (k', v) :: rest, k =>
      if k' = k then some (v, rest)
      else
        match apop rest k with
        | none => none
        | some (w, rest') => some (w, (k', v) :: rest')

/-- Python `d.pop(k, UNSET)`: the popped value (or `none` for the `UNSET`
default) together with the remaining dict. -/
def apopD {V : Type} (d : PyDict V) (k : String) : Option V × PyDict V :=
  match apop d k with
  | none => (none, d)
  | some (v, rest) => (some v, rest)

theorem aget_ainsert_self {V : Type} (d : PyDict V) (k : String) (v : V) :
    aget (ainsert d k v) k = some v := by
  induction d with
  | nil => simp [ainsert, aget]
  | cons p rest ih =>
      obtain ⟨k', v'⟩ := p
      by_cases h : k' = k <;> simp [ainsert, aget, h, ih]

theorem aget_ainsert_ne {V : Type} (d : PyDict V) (k k₂ : String) (v : V)
    (hne : k ≠ k₂) : aget (ainsert d k v) k₂ = aget d k₂ := by
  induction d with
  | nil => simp [ainsert, aget, hne]
  | cons p rest ih =>
      obtain ⟨k', v'⟩ := p
      by_cases h : k' = k
      · subst h; simp [ainsert, aget, hne]
      · simp [ainsert, aget, h, ih]

theorem apop_eq_none_of_aget_eq_none {V : Type} (d : PyDict V) (k : String)
    (h : aget d k = none) : apop d k = none := by
  induction d with
  | nil => simp [apop]
  | cons p rest ih =>
      obtain ⟨k', v'⟩ := p
      by_cases hk : k' = k
      · simp [aget, hk] at h
      · simp [aget, hk] at h
        simp [apop, hk, ih h]

theorem aget_apop_rest_ne {V : Type} (d : PyDict V) (k k₂ : String)
    (v : V) (rest : PyDict V) (hne : k ≠ k₂) (h : apop d k = some (v, rest)) :
    aget rest k₂ = aget d k₂ := by
  induction d generalizing rest with
  | nil => simp [apop] at h
  | cons p tail ih =>
      obtain ⟨k', v'⟩ := p
      by_cases hk : k' = k
      · subst hk
        simp [apop] at h
        obtain ⟨hv, hrest⟩ := h
        subst hrest
        simp [aget, hne]
      · simp [apop, hk] at h
        match htail : apop tail k with
        | none => rw [htail] at h; simp at h
        | some (w, tail') =>
            rw [htail] at h
            simp at h
            obtain ⟨hv, hrest⟩ := h
            subst hrest
            subst hv
            by_cases hk2 : k' = k₂
            · simp [aget, hk2]
            · simp [aget, hk2, ih tail' htail]

end PyDict

open PyDict

/-- The object heap: Python dict objects addressed by `Nat` references.
`next` is the next fresh address; `mem` gives each address's current
contents.  Used to embed in-place dict mutation that is visible to the
caller through a shared reference. -/
structure Heap (V : Type) where
  mem : Nat → PyDict V
  next : Nat

namespace Heap

/-- Read the dict object at address `i`. -/
def get {V : Type} (h : Heap V) (i : Nat) : PyDict V := h.mem i

/-- Overwrite the dict object at address `i` (in-place mutation). -/
def set {V : Type} (h : Heap V) (i : Nat) (d : PyDict V) : Heap V :=
  { h with mem := fun j => if j = i then d else h.mem j }

/-- Python `dict.copy()` / a dict literal: allocate a fresh object holding
`d` and return its address. -/
def alloc {V : Type} (h : Heap V) (d : PyDict V) : Nat × Heap V :=
  (h.next, { mem := fun j => if j = h.next then d else h.mem j,
             next := h.next + 1 })

theorem get_set_self {V : Type} (h : Heap V) (i : Nat) (d : PyDict V) :
    (h.set i d).get i = d := by
  simp [get, set]

theorem get_set_ne {V : Type} (h : Heap V) (i j : Nat) (d : PyDict V)
    (hne : j ≠ i) : (h.set i d).get j = h.get j := by
  simp [get, set, hne]

theorem get_alloc_ne {V : Type} (h : Heap V) (d : PyDict V) (j : Nat)
    (hne : j ≠ h.next) : ((h.alloc d).2).get j = h.get j := by
  simp [get, alloc, hne]

theorem alloc_fst {V : Type} (h : Heap V) (d : PyDict V) :
    (h.alloc d).1 = h.next := rfl

theorem alloc_next {V : Type} (h : Heap V) (d : PyDict V) :
    ((h.alloc d).2).next = h.next + 1 := rfl

end Heap

/-- Modelled from the spec: the additional-properties wrapper class
`CreateChatCompletionJsonBodyFunctionsItemParameters` (its file is not under
`src/`).  Per the spec it is a schema object carried as an opaque mapping;
the generated class stores the decoded mapping as `additional_properties`. -/
structure CreateChatCompletionJsonBodyFunctionsItemParameters where
  additional_properties : PyDict Json

namespace CreateChatCompletionJsonBodyFunctionsItemParameters

/-- Modelled from the spec: `to_dict` of an additional-properties wrapper
renders exactly the stored mapping (a fresh dict updated from
`additional_properties`). -/
def to_dict (x : CreateChatCompletionJsonBodyFunctionsItemParameters) :
    PyDict Json :=
  x.additional_properties

/-- Modelled from the spec: `from_dict` of an additional-properties wrapper
copies the source mapping into `additional_properties`; applied to a
non-dict value the generated code fails (calling `.copy()` on it). -/
def from_dict (src : Json) :
    Except PyErr CreateChatCompletionJsonBodyFunctionsItemParameters :=
  match src with
  | Json.obj fields => Except.ok { additional_properties := fields }
  | _ => Except.error (PyErr.attributeError "copy")

end CreateChatCompletionJsonBodyFunctionsItemParameters

/-- The model class of
`create_chat_completion_json_body_functions_item.py`: a function
definition with required `name` and `parameters` and optional
`description`.  `description = none` is the `UNSET` sentinel; an explicit
`None` is `some Json.null`.  Field values are untyped at runtime, hence
`Json`. -/
structure CreateChatCompletionJsonBodyFunctionsItem where
  name : Json
  parameters : CreateChatCompletionJsonBodyFunctionsItemParameters
  description : Option Json

namespace CreateChatCompletionJsonBodyFunctionsItem

/-- Method `to_dict`: builds `{"name": name, "parameters": parameters.to_dict()}`
and adds `description` only when it is not `UNSET`. -/
def to_dict (x : CreateChatCompletionJsonBodyFunctionsItem) : PyDict Json :=
  let field_dict : PyDict Json :=
    [("name", x.name),
     ("parameters", Json.obj x.parameters.to_dict)]
  match x.description with
  | none => field_dict
  | some v => ainsert field_dict "description" v

/-- Method `from_dict`: copies the source dict, pops `name` and `parameters`
(`KeyError` when absent), decodes `parameters` recursively, and pops
`description` with the `UNSET` default. -/
def from_dict (src_dict : PyDict Json) :
    Except PyErr CreateChatCompletionJsonBodyFunctionsItem :=
  match apop src_dict "name" with
  | none => Except.error (PyErr.keyError "name")
  | some (name, d1) =>
    match apop d1 "parameters" with
    | none => Except.error (PyErr.keyError "parameters")
    | some (pv, d2) =>
      match CreateChatCompletionJsonBodyFunctionsItemParameters.from_dict pv with
      | Except.error e => Except.error e
      | Except.ok parameters =>
        let (description, _) := apopD d2 "description"
        Except.ok { name := name, parameters := parameters,
                    description := description }

end CreateChatCompletionJsonBodyFunctionsItem

/-- Modelled from the spec: the closed enumeration
`CreateChatCompletionJsonBodyMessagesItemType1ContentType1ItemType0Type`
(its file is not under `src/`).  It is the `type` discriminator of the
image content-part variant; its single member's underlying scalar value is
the string `"image_url"`. -/
inductive CreateChatCompletionJsonBodyMessagesItemType1ContentType1ItemType0Type where
  | image_url :
      CreateChatCompletionJsonBodyMessagesItemType1ContentType1ItemType0Type

namespace CreateChatCompletionJsonBodyMessagesItemType1ContentType1ItemType0Type

/-- Modelled from the spec: `self.type.value`, the enum member's underlying
scalar value (not its symbolic name). -/
def value :
    CreateChatCompletionJsonBodyMessagesItemType1ContentType1ItemType0Type →
    Json
  | image_url => Json.str "image_url"

/-- Modelled from the spec: the enum constructor applied to a raw value, as
in `Type(d.pop("type"))`; an unrecognized value raises `ValueError` (the
spec's `UnrecognizedVariant`). -/
def ofValue (j : Json) :
    Except PyErr
      CreateChatCompletionJsonBodyMessagesItemType1ContentType1ItemType0Type :=
  match j with
  | Json.str "image_url" => Except.ok image_url
  | _ => Except.error (PyErr.valueError "unrecognized enum value")

end CreateChatCompletionJsonBodyMessagesItemType1ContentType1ItemType0Type

/-- Modelled from the spec: the nested record
`CreateChatCompletionJsonBodyMessagesItemType1ContentType1ItemType0ImageUrl`
(its file is not under `src/`); the image-url payload of the image content
part, modelled as a mapping-backed record like the other generated nested
objects. -/
structure CreateChatCompletionJsonBodyMessagesItemType1ContentType1ItemType0ImageUrl where
  additional_properties : PyDict Json

namespace CreateChatCompletionJsonBodyMessagesItemType1ContentType1ItemType0ImageUrl

/-- Modelled from the spec: `to_dict` renders the stored mapping. -/
def to_dict
    (x : CreateChatCompletionJsonBodyMessagesItemType1ContentType1ItemType0ImageUrl) :
    PyDict Json :=
  x.additional_properties

/-- Modelled from the spec: `from_dict` decodes a mapping value and fails on
a non-dict value. -/
def from_dict (src : Json) :
    Except PyErr
      CreateChatCompletionJsonBodyMessagesItemType1ContentType1ItemType0ImageUrl :=
  match src with
  | Json.obj fields => Except.ok { additional_properties := fields }
  | _ => Except.error (PyErr.attributeError "copy")

end CreateChatCompletionJsonBodyMessagesItemType1ContentType1ItemType0ImageUrl

/-- The model class of
`create_chat_completion_json_body_messages_item_type_1_content_type_1_item_type_0.py`:
the image content-part variant, with the enum `type` discriminator and the
nested `image_url` record. -/
structure CreateChatCompletionJsonBodyMessagesItemType1ContentType1ItemType0 where
  type : CreateChatCompletionJsonBodyMessagesItemType1ContentType1ItemType0Type
  image_url :
    CreateChatCompletionJsonBodyMessagesItemType1ContentType1ItemType0ImageUrl

namespace CreateChatCompletionJsonBodyMessagesItemType1ContentType1ItemType0

/-- Method `to_dict`: `{"type": self.type.value, "image_url":
self.image_url.to_dict()}` — the enum field serializes to its underlying
scalar value. -/
def to_dict
    (x : CreateChatCompletionJsonBodyMessagesItemType1ContentType1ItemType0) :
    PyDict Json :=
  [("type", x.type.value),
   ("image_url", Json.obj x.image_url.to_dict)]

/-- Method `from_dict`: copies the source dict, decodes the popped `type` through
the enum constructor and the popped `image_url` recursively. -/
def from_dict (src_dict : PyDict Json) :
    Except PyErr
      CreateChatCompletionJsonBodyMessagesItemType1ContentType1ItemType0 :=
  match apop src_dict "type" with
  | none => Except.error (PyErr.keyError "type")
  | some (tv, d1) =>
    match CreateChatCompletionJsonBodyMessagesItemType1ContentType1ItemType0Type.ofValue tv with
    | Except.error e => Except.error e
    | Except.ok type =>
      match apop d1 "image_url" with
      | none => Except.error (PyErr.keyError "image_url")
      | some (iv, _) =>
        match CreateChatCompletionJsonBodyMessagesItemType1ContentType1ItemType0ImageUrl.from_dict iv with
        | Except.error e => Except.error e
        | Except.ok image_url => Except.ok { type := type, image_url := image_url }

end CreateChatCompletionJsonBodyMessagesItemType1ContentType1ItemType0

/-- The model class of
`create_chat_completion_json_body_req_payload_messages_item_type_2_tool_calls_item_function.py`:
a tool call's function with required `name` and `arguments` (an opaque
string at the schema level, untyped at runtime). -/
structure CreateChatCompletionJsonBodyReqPayloadMessagesItemType2ToolCallsItemFunction where
  name : Json
  arguments : Json

namespace CreateChatCompletionJsonBodyReqPayloadMessagesItemType2ToolCallsItemFunction

/-- Method `to_dict`: `{"name": name, "arguments": arguments}`. -/
def to_dict
    (x : CreateChatCompletionJsonBodyReqPayloadMessagesItemType2ToolCallsItemFunction) :
    PyDict Json :=
  [("name", x.name), ("arguments", x.arguments)]

/-- Method `from_dict`: copies the source dict and pops `name` then `arguments`,
raising `KeyError` when either is absent. -/
def from_dict (src_dict : PyDict Json) :
    Except PyErr
      CreateChatCompletionJsonBodyReqPayloadMessagesItemType2ToolCallsItemFunction :=
  match apop src_dict "name" with
  | none => Except.error (PyErr.keyError "name")
  | some (name, d1) =>
    match apop d1 "arguments" with
    | none => Except.error (PyErr.keyError "arguments")
    | some (arguments, _) => Except.ok { name := name, arguments := arguments }

end CreateChatCompletionJsonBodyReqPayloadMessagesItemType2ToolCallsItemFunction

/-- The model class of
`create_chat_completion_json_body_tool_choice_type_2_function.py`: the
explicit tool-choice function with its required `name`. -/
structure CreateChatCompletionJsonBodyToolChoiceType2Function where
  name : Json

namespace CreateChatCompletionJsonBodyToolChoiceType2Function

/-- Method `to_dict`: `{"name": name}`. -/
def to_dict (x : CreateChatCompletionJsonBodyToolChoiceType2Function) :
    PyDict Json :=
  [("name", x.name)]

/-- Method `from_dict`: copies the source dict and pops `name`, raising `KeyError`
when it is absent. -/
def from_dict (src_dict : PyDict Json) :
    Except PyErr CreateChatCompletionJsonBodyToolChoiceType2Function :=
  match apop src_dict "name" with
  | none => Except.error (PyErr.keyError "name")
  | some (name, _) => Except.ok { name := name }

end CreateChatCompletionJsonBodyToolChoiceType2Function

/-- Modelled from the spec: the SDK release version string, loaded at import
time from `pyproject.toml` (`toml.load("pyproject.toml")["tool"]["poetry"]["version"]`;
the file is not under `src/`).  The claims only relate outputs to this
constant itself, so its concrete value is irrelevant. -/
def version : String := "0.3.0"

/-- The generated `AuthenticatedClient` as used by `shared.py`: a base URL
and a bearer token.  (The class itself is generated code outside `src/`;
only these two constructor fields are relevant.) -/
structure AuthenticatedClient where
  base_url : String
  token : String

/-- The module-level `configured_client`, initialized with the fixed base
URL and an empty token.  `shared.py` reads its (externally mutable) token,
so the embedded functions below take the current client as an argument;
this constant is its initial value. -/
def configured_client : AuthenticatedClient :=
  { base_url := "https://app.openpipe.ai/api/v1", token := "" }

/-- Modelled from the spec: `ReportJsonBodyTags` (its file is not under
`src/`), the tags record attached to reports and cache checks; an
additional-properties wrapper over string-valued tags whose `from_dict`
copies the source mapping. -/
structure ReportJsonBodyTags where
  additional_properties : PyDict String

namespace ReportJsonBodyTags

/-- Modelled from the spec: `ReportJsonBodyTags.from_dict` copies the given
mapping into `additional_properties`. -/
def from_dict (d : PyDict String) : ReportJsonBodyTags :=
  { additional_properties := d }

end ReportJsonBodyTags

/-- The `openpipe_options` mapping as read by `shared.py`: only its `tags`
and `cache` entries are ever consulted (`openpipe_options.get("tags")`,
`openpipe_options.get("cache", False)`).  `tags`, when present and not
`None`, is a reference (heap address) to the caller's tags dict, so that
in-place mutation through the shared reference is observable. -/
structure OpenpipeOptions where
  tags : Option Nat := none
  cache : Option Bool := none

/-- Function `_get_tags(openpipe_options)` from `shared.py`, over the tags heap:
`tags = openpipe_options.get("tags") or {}` aliases the caller's dict only
when that dict is truthy (non-empty); then `tags["$sdk"] = "python"` and
`tags["$sdk.version"] = version` assign in place, and the result is
`ReportJsonBodyTags.from_dict(tags)`. -/
def get_tags (h : Heap String) (openpipe_options : OpenpipeOptions) :
    ReportJsonBodyTags × Heap String :=
  match openpipe_options.tags with
  | some i =>
    if (h.get i).isEmpty then
      let tags := ainsert (ainsert [] "$sdk" "python") "$sdk.version" version
      (ReportJsonBodyTags.from_dict tags, h)
    else
      let h1 := h.set i (ainsert (h.get i) "$sdk" "python")
      let h2 := h1.set i (ainsert (h1.get i) "$sdk.version" version)
      (ReportJsonBodyTags.from_dict (h2.get i), h2)
  | none =>
      let tags := ainsert (ainsert [] "$sdk" "python") "$sdk.version" version
      (ReportJsonBodyTags.from_dict tags, h)

/-- Function `_should_check_cache(openpipe_options)` from `shared.py`: `False` when
the configured client's token is empty, otherwise
`openpipe_options.get("cache", False)`. -/
def should_check_cache (client : AuthenticatedClient)
    (openpipe_options : OpenpipeOptions) : Bool :=
  if client.token = "" then false
  else openpipe_options.cache.getD false

/-- Modelled from the spec: `CheckCacheResponse200` (its file is not under
`src/`): the decoded cache-check response, which per the spec either is
empty or carries a `resp_payload`; `none` is the `UNSET`/absent payload
(falsy, like an empty mapping). -/
structure CheckCacheResponse200 where
  resp_payload : Option (PyDict Json)

/-- Function `_process_cache_payload(payload)` from `shared.py`: `None` when the
response or its `resp_payload` is falsy (absent or empty); otherwise
assigns `payload.resp_payload["openpipe"] = {"cache_status": "HIT"}` and
returns the payload. -/
def process_cache_payload (payload : Option CheckCacheResponse200) :
    Option (PyDict Json) :=
  match payload with
  | none => none
  | some p =>
    match p.resp_payload with
    | none => none
    | some d =>
      if d.isEmpty then none
      else some (ainsert d "openpipe" (Json.obj [("cache_status", Json.str "HIT")]))

/-- Modelled from the spec: `CheckCacheJsonBody` (its file is not under
`src/`), constructed in `shared.py` with exactly these three fields:
the echoed `req_payload`, the `requested_at` epoch-millisecond timestamp,
and the composed tags. -/
structure CheckCacheJsonBody where
  req_payload : PyDict Json
  requested_at : Int
  tags : ReportJsonBodyTags

/-- Modelled from the spec: `ReportJsonBody` (its file is not under `src/`),
constructed in `shared.py` from the caller's completion-describing keyword
fields plus the composed tags. -/
structure ReportJsonBody where
  kwargs : PyDict Json
  tags : ReportJsonBodyTags

/-- Function `maybe_check_cache(openpipe_options, req_payload)` from `shared.py`.
The remote operation `check_cache.sync` is a parameter `remote` (any
behavior of request transmission plus response deserialization, returning
the decoded optional response or raising); `now` is `int(time.time() * 1000)`.
The result's first component is `Except` so that an exception escaping the
function would be visible as `Except.error`: the `try/except` absorbs every
remote failure into `Except.ok none` after printing.  The second component
is the tags heap after the call. -/
def maybe_check_cache
    (remote : AuthenticatedClient → CheckCacheJsonBody →
      Except PyErr (Option CheckCacheResponse200))
    (client : AuthenticatedClient) (now : Int) (h : Heap String)
    (openpipe_options : OpenpipeOptions) (req_payload : PyDict Json) :
    Except PyErr (Option (PyDict Json)) × Heap String :=
  if ¬ should_check_cache client openpipe_options then (Except.ok none, h)
  else
    let gt := get_tags h openpipe_options
    match remote client { req_payload := req_payload, requested_at := now,
                          tags := gt.1 } with
    | Except.ok payload => (Except.ok (process_cache_payload payload), gt.2)
    | Except.error _ => (Except.ok none, gt.2)

/-- Function `maybe_check_cache_async(openpipe_options, req_payload)` from
`shared.py`: identical to the synchronous variant except that the remote
operation is `check_cache.asyncio` and is awaited; the suspension is
transparent in this embedding. -/
def maybe_check_cache_async
    (remote : AuthenticatedClient → CheckCacheJsonBody →
      Except PyErr (Option CheckCacheResponse200))
    (client : AuthenticatedClient) (now : Int) (h : Heap String)
    (openpipe_options : OpenpipeOptions) (req_payload : PyDict Json) :
    Except PyErr (Option (PyDict Json)) × Heap String :=
  if ¬ should_check_cache client openpipe_options then (Except.ok none, h)
  else
    let gt := get_tags h openpipe_options
    match remote client { req_payload := req_payload, requested_at := now,
                          tags := gt.1 } with
    | Except.ok payload => (Except.ok (process_cache_payload payload), gt.2)
    | Except.error _ => (Except.ok none, gt.2)

/-- Function `report(openpipe_options, **kwargs)` from `shared.py`: composes tags,
fires `api_report.sync_detailed` (the parameter `remote`, whose returned
response is discarded), and absorbs any failure; there is no return value
(`Unit`), and an exception escaping would be visible as `Except.error`. -/
def report
    (remote : AuthenticatedClient → ReportJsonBody → Except PyErr Unit)
    (client : AuthenticatedClient) (h : Heap String)
    (openpipe_options : OpenpipeOptions) (kwargs : PyDict Json) :
    Except PyErr Unit × Heap String :=
  let gt := get_tags h openpipe_options
  match remote client { kwargs := kwargs, tags := gt.1 } with
  | Except.ok _ => (Except.ok (), gt.2)
  | Except.error _ => (Except.ok (), gt.2)

/-- Function `report_async(openpipe_options, **kwargs)` from `shared.py`: identical
to `report` except that the remote operation is
`api_report.asyncio_detailed` and is awaited. -/
def report_async
    (remote : AuthenticatedClient → ReportJsonBody → Except PyErr Unit)
    (client : AuthenticatedClient) (h : Heap String)
    (openpipe_options : OpenpipeOptions) (kwargs : PyDict Json) :
    Except PyErr Unit × Heap String :=
  let gt := get_tags h openpipe_options
  match remote client { kwargs := kwargs, tags := gt.1 } with
  | Except.ok _ => (Except.ok (), gt.2)
  | Except.error _ => (Except.ok (), gt.2)

namespace CreateChatCompletionJsonBodyFunctionsItem

/-- Method `from_dict` again, at the level of the object heap, so that the effect
on the caller's dict object is observable: `src_dict` is the address of the
caller's dict, `d = src_dict.copy()` allocates a fresh object, and every
`pop` mutates only that copy.  The returned heap is the heap after the
call, whether the decode succeeds or fails. -/
def from_dict_heap (h : Heap Json) (src_dict : Nat) :
    Except PyErr CreateChatCompletionJsonBodyFunctionsItem × Heap Json :=
  let alloc_result := h.alloc (h.get src_dict)
  let dRef := alloc_result.1
  let h0 := alloc_result.2
  match apop (h0.get dRef) "name" with
  | none => (Except.error (PyErr.keyError "name"), h0)
  | some (name, rest1) =>
    let h1 := h0.set dRef rest1
    match apop (h1.get dRef) "parameters" with
    | none => (Except.error (PyErr.keyError "parameters"), h1)
    | some (pv, rest2) =>
      let h2 := h1.set dRef rest2
      match CreateChatCompletionJsonBodyFunctionsItemParameters.from_dict pv with
      | Except.error e => (Except.error e, h2)
      | Except.ok parameters =>
        let pd := apopD (h2.get dRef) "description"
        let h3 := h2.set dRef pd.2
        (Except.ok { name := name, parameters := parameters,
                     description := pd.1 }, h3)

end CreateChatCompletionJsonBodyFunctionsItem

namespace CreateChatCompletionJsonBodyReqPayloadMessagesItemType2ToolCallsItemFunction

/-- Method `from_dict` at the level of the object heap, as for the functions-item
class: the copy is a fresh allocation and the pops mutate only the copy. -/
def from_dict_heap (h : Heap Json) (src_dict : Nat) :
    Except PyErr
      CreateChatCompletionJsonBodyReqPayloadMessagesItemType2ToolCallsItemFunction
      × Heap Json :=
  let alloc_result := h.alloc (h.get src_dict)
  let dRef := alloc_result.1
  let h0 := alloc_result.2
  match apop (h0.get dRef) "name" with
  | none => (Except.error (PyErr.keyError "name"), h0)
  | some (name, rest1) =>
    let h1 := h0.set dRef rest1
    match apop (h1.get dRef) "arguments" with
    | none => (Except.error (PyErr.keyError "arguments"), h1)
    | some (arguments, rest2) =>
      let h2 := h1.set dRef rest2
      (Except.ok { name := name, arguments := arguments }, h2)

end CreateChatCompletionJsonBodyReqPayloadMessagesItemType2ToolCallsItemFunction

namespace PyDict

theorem apop_of_aget_eq_some {V : Type} (d : PyDict V) (k : String) (v : V)
    (h : aget d k = some v) : ∃ rest, apop d k = some (v, rest) := by
  induction d with
  | nil => simp [aget] at h
  | cons p tail ih =>
      obtain ⟨k', v'⟩ := p
      by_cases hk : k' = k
      · simp [aget, hk] at h
        subst h
        exact ⟨tail, by simp [apop, hk]⟩
      · simp [aget, hk] at h
        obtain ⟨rest, hrest⟩ := ih h
        exact ⟨(k', v') :: rest, by simp [apop, hk, hrest]⟩

end PyDict

/-- C4: for every validly constructed instance of the four embedded model
classes (function definition, image content part, tool-call function,
tool-choice function), `from_dict (to_dict x)` reproduces an instance equal
to `x` in all fields, unset optional fields remaining unset. -/
theorem model_round_trip
    (a : CreateChatCompletionJsonBodyFunctionsItem)
    (b : CreateChatCompletionJsonBodyMessagesItemType1ContentType1ItemType0)
    (c : CreateChatCompletionJsonBodyReqPayloadMessagesItemType2ToolCallsItemFunction)
    (d : CreateChatCompletionJsonBodyToolChoiceType2Function) :
    CreateChatCompletionJsonBodyFunctionsItem.from_dict a.to_dict = Except.ok a
    ∧ CreateChatCompletionJsonBodyMessagesItemType1ContentType1ItemType0.from_dict
        b.to_dict = Except.ok b
    ∧ CreateChatCompletionJsonBodyReqPayloadMessagesItemType2ToolCallsItemFunction.from_dict
        c.to_dict = Except.ok c
    ∧ CreateChatCompletionJsonBodyToolChoiceType2Function.from_dict
        d.to_dict = Except.ok d := by
  refine ⟨?_, ?_, ?_, ?_⟩
  · obtain ⟨name, parameters, description⟩ := a
    cases description <;> rfl
  · obtain ⟨t, u⟩ := b
    cases t
    rfl
  · rfl
  · rfl

/-- C6: `to_dict` of the function-definition model always includes the
required `name` and `parameters` fields, and includes the optional
`description` exactly when it is not the unset sentinel: an unset
description is omitted entirely, while a description explicitly set to
`None` appears with a null value (the third conjunct equates the looked-up
entry with the optional field itself, covering all three states). -/
theorem to_dict_field_inclusion (x : CreateChatCompletionJsonBodyFunctionsItem) :
    aget x.to_dict "name" = some x.name
    ∧ aget x.to_dict "parameters" = some (Json.obj x.parameters.to_dict)
    ∧ aget x.to_dict "description" = x.description := by
  obtain ⟨name, parameters, description⟩ := x
  cases description <;> exact ⟨rfl, rfl, rfl⟩

/-- C8: `to_dict` of the image content part serializes the enumerated
`type` discriminator to the enum member's underlying scalar value — the
string `"image_url"` — not its symbolic name. -/
theorem to_dict_enum_scalar_value
    (x : CreateChatCompletionJsonBodyMessagesItemType1ContentType1ItemType0) :
    aget x.to_dict "type" = some x.type.value
    ∧ x.type.value = Json.str "image_url" := by
  obtain ⟨t, u⟩ := x
  cases t
  exact ⟨rfl, rfl⟩

/-- C7: `from_dict` of the function-definition model fails with the
`KeyError` of the missing key (the spec's `MissingField`) whenever a
required key is absent: a dict without `name` raises `KeyError "name"`,
and a dict with `name` but without `parameters` raises
`KeyError "parameters"`; in the embedding the `Except.error` result is the
exception propagating to the immediate caller. -/
theorem from_dict_missing_required_key (d : PyDict Json) :
    (aget d "name" = none →
      CreateChatCompletionJsonBodyFunctionsItem.from_dict d =
        Except.error (PyErr.keyError "name"))
    ∧ (∀ v, aget d "name" = some v → aget d "parameters" = none →
      CreateChatCompletionJsonBodyFunctionsItem.from_dict d =
        Except.error (PyErr.keyError "parameters")) := by
  constructor
  · intro hname
    unfold CreateChatCompletionJsonBodyFunctionsItem.from_dict
    rw [apop_eq_none_of_aget_eq_none d "name" hname]
  · intro v hname hparams
    obtain ⟨rest, hrest⟩ := apop_of_aget_eq_some d "name" v hname
    have hget : aget rest "parameters" = none := by
      rw [aget_apop_rest_ne d "name" "parameters" v rest (by decide) hrest]
      exact hparams
    unfold CreateChatCompletionJsonBodyFunctionsItem.from_dict
    rw [hrest]
    simp [apop_eq_none_of_aget_eq_none rest "parameters" hget]

/-- Witness for C7: the empty payload raises `KeyError "name"`, and a
function-definition payload that has `name` but lacks `parameters` raises
`KeyError "parameters"`. -/
theorem from_dict_missing_required_key_witness :
    CreateChatCompletionJsonBodyFunctionsItem.from_dict [] =
      Except.error (PyErr.keyError "name")
    ∧ CreateChatCompletionJsonBodyFunctionsItem.from_dict
        [("name", Json.str "get_weather")] =
      Except.error (PyErr.keyError "parameters") :=
  ⟨(from_dict_missing_required_key []).1 rfl,
   (from_dict_missing_required_key [("name", Json.str "get_weather")]).2
     (Json.str "get_weather") rfl rfl⟩

/-- C9: `from_dict` does not mutate its argument: for any valid reference
`src_dict` into the object heap, the caller's dict object holds the same
contents after the call as before, whether the decode succeeds or fails —
the pops act only on the freshly allocated `src_dict.copy()`.  Stated for
both cited model classes. -/
theorem from_dict_preserves_caller_dict (h : Heap Json) (src_dict : Nat)
    (hvalid : src_dict < h.next) :
    ((CreateChatCompletionJsonBodyFunctionsItem.from_dict_heap h src_dict).2).get
        src_dict = h.get src_dict
    ∧ ((CreateChatCompletionJsonBodyReqPayloadMessagesItemType2ToolCallsItemFunction.from_dict_heap
        h src_dict).2).get src_dict = h.get src_dict := by
  have hne : src_dict ≠ h.next := Nat.ne_of_lt hvalid
  constructor
  · simp only [CreateChatCompletionJsonBodyFunctionsItem.from_dict_heap]
    repeat' split
    all_goals simp [Heap.get, Heap.set, Heap.alloc, hne]
  · simp only [CreateChatCompletionJsonBodyReqPayloadMessagesItemType2ToolCallsItemFunction.from_dict_heap]
    repeat' split
    all_goals simp [Heap.get, Heap.set, Heap.alloc, hne]

/-- Witness for C9: on a one-object heap holding a decodable payload, both
decodes leave the caller's dict exactly as it was. -/
theorem from_dict_preserves_caller_dict_witness :
    ((CreateChatCompletionJsonBodyFunctionsItem.from_dict_heap
        ⟨fun _ => [("name", Json.str "f"), ("parameters", Json.obj []),
                   ("arguments", Json.str "x")], 1⟩ 0).2).get 0
      = Heap.get ⟨fun _ => [("name", Json.str "f"), ("parameters", Json.obj []),
                            ("arguments", Json.str "x")], 1⟩ 0
    ∧ ((CreateChatCompletionJsonBodyReqPayloadMessagesItemType2ToolCallsItemFunction.from_dict_heap
        ⟨fun _ => [("name", Json.str "f"), ("parameters", Json.obj []),
                   ("arguments", Json.str "x")], 1⟩ 0).2).get 0
      = Heap.get ⟨fun _ => [("name", Json.str "f"), ("parameters", Json.obj []),
                            ("arguments", Json.str "x")], 1⟩ 0 :=
  from_dict_preserves_caller_dict
    ⟨fun _ => [("name", Json.str "f"), ("parameters", Json.obj []),
               ("arguments", Json.str "x")], 1⟩ 0 (Nat.zero_lt_one)

/-- C5: the tags record produced by `_get_tags` always carries
`$sdk = "python"` (the SDK's own constant) and `$sdk.version = version`,
overriding any caller-supplied values under those two keys; and with empty
options (no `tags` entry) it consists of exactly those two entries. -/
theorem get_tags_injects_sdk_keys (h : Heap String) (opts : OpenpipeOptions) :
    aget ((get_tags h opts).1).additional_properties "$sdk" = some "python"
    ∧ aget ((get_tags h opts).1).additional_properties "$sdk.version" = some version
    ∧ (opts.tags = none →
        ((get_tags h opts).1).additional_properties =
          [("$sdk", "python"), ("$sdk.version", version)]) := by
  cases htags : opts.tags with
  | none =>
      simp only [get_tags, htags]
      exact ⟨rfl, rfl, fun _ => rfl⟩
  | some i =>
      simp only [get_tags, htags]
      by_cases hE : (h.get i).isEmpty
      · rw [if_pos hE]
        refine ⟨rfl, rfl, fun hcontra => ?_⟩
        simp [htags] at hcontra
      · rw [if_neg hE]
        simp only [ReportJsonBodyTags.from_dict, Heap.get_set_self]
        refine ⟨?_, ?_, fun hcontra => ?_⟩
        · rw [aget_ainsert_ne (ainsert (h.get i) "$sdk" "python")
              "$sdk.version" "$sdk" version (by decide)]
          exact aget_ainsert_self (h.get i) "$sdk" "python"
        · exact aget_ainsert_self (ainsert (h.get i) "$sdk" "python")
            "$sdk.version" version
        · simp [htags] at hcontra

/-- Witness for C5: with empty options the composed tags are exactly
`$sdk` and `$sdk.version`. -/
theorem get_tags_injects_sdk_keys_witness :
    ((get_tags ⟨fun _ => [], 0⟩ { tags := none, cache := none }).1).additional_properties
      = [("$sdk", "python"), ("$sdk.version", version)] :=
  (get_tags_injects_sdk_keys ⟨fun _ => [], 0⟩
    { tags := none, cache := none }).2.2 rfl

theorem get_tags_mutates_heap (h : Heap String) (opts : OpenpipeOptions)
    (i : Nat) (htags : opts.tags = some i) (hne : h.get i ≠ []) :
    aget (((get_tags h opts).2).get i) "$sdk" = some "python"
    ∧ aget (((get_tags h opts).2).get i) "$sdk.version" = some version := by
  have hE : ¬ (h.get i).isEmpty := by
    cases hd : h.get i with
    | nil => exact absurd hd hne
    | cons p rest => simp [hd]
  simp only [get_tags, htags]
  rw [if_neg hE]
  simp only [Heap.get_set_self]
  constructor
  · rw [aget_ainsert_ne (ainsert (h.get i) "$sdk" "python")
        "$sdk.version" "$sdk" version (by decide)]
    exact aget_ainsert_self (h.get i) "$sdk" "python"
  · exact aget_ainsert_self (ainsert (h.get i) "$sdk" "python")
      "$sdk.version" version

theorem report_heap_eq
    (remote : AuthenticatedClient → ReportJsonBody → Except PyErr Unit)
    (client : AuthenticatedClient) (h : Heap String)
    (opts : OpenpipeOptions) (kwargs : PyDict Json) :
    (report remote client h opts kwargs).2 = (get_tags h opts).2 := by
  simp only [report]
  split <;> rfl

theorem report_async_heap_eq
    (remote : AuthenticatedClient → ReportJsonBody → Except PyErr Unit)
    (client : AuthenticatedClient) (h : Heap String)
    (opts : OpenpipeOptions) (kwargs : PyDict Json) :
    (report_async remote client h opts kwargs).2 = (get_tags h opts).2 := by
  simp only [report_async]
  split <;> rfl

theorem maybe_check_cache_heap_eq
    (remote : AuthenticatedClient → CheckCacheJsonBody →
      Except PyErr (Option CheckCacheResponse200))
    (client : AuthenticatedClient) (now : Int) (h : Heap String)
    (opts : OpenpipeOptions) (req_payload : PyDict Json)
    (hcheck : should_check_cache client opts = true) :
    (maybe_check_cache remote client now h opts req_payload).2 =
      (get_tags h opts).2 := by
  simp only [maybe_check_cache, hcheck]
  simp only [not_true, if_false]
  split <;> rfl

theorem maybe_check_cache_async_heap_eq
    (remote : AuthenticatedClient → CheckCacheJsonBody →
      Except PyErr (Option CheckCacheResponse200))
    (client : AuthenticatedClient) (now : Int) (h : Heap String)
    (opts : OpenpipeOptions) (req_payload : PyDict Json)
    (hcheck : should_check_cache client opts = true) :
    (maybe_check_cache_async remote client now h opts req_payload).2 =
      (get_tags h opts).2 := by
  simp only [maybe_check_cache_async, hcheck]
  simp only [not_true, if_false]
  split <;> rfl

/-- C10: when the caller's options carry a non-empty `tags` dict, the tag
composition step mutates that dict in place: after `report` and
`report_async` — which always reach tag composition, whatever the token or
cache flag — and after `maybe_check_cache` and `maybe_check_cache_async`
whenever they reach it (the cache check is performed), the caller's own
tags dict object contains the `$sdk` and `$sdk.version` entries. -/
theorem shared_calls_mutate_caller_tags
    (remote_cc : AuthenticatedClient → CheckCacheJsonBody →
      Except PyErr (Option CheckCacheResponse200))
    (remote_r : AuthenticatedClient → ReportJsonBody → Except PyErr Unit)
    (client : AuthenticatedClient) (now : Int) (h : Heap String)
    (opts : OpenpipeOptions) (i : Nat) (req_payload kwargs : PyDict Json)
    (htags : opts.tags = some i) (hne : h.get i ≠ []) :
    (aget (((report remote_r client h opts kwargs).2).get i) "$sdk"
        = some "python"
      ∧ aget (((report remote_r client h opts kwargs).2).get i) "$sdk.version"
        = some version)
    ∧ (aget (((report_async remote_r client h opts kwargs).2).get i) "$sdk"
        = some "python"
      ∧ aget (((report_async remote_r client h opts kwargs).2).get i)
          "$sdk.version" = some version)
    ∧ (should_check_cache client opts = true →
        aget (((maybe_check_cache remote_cc client now h opts req_payload).2).get i)
          "$sdk" = some "python"
      ∧ aget (((maybe_check_cache remote_cc client now h opts req_payload).2).get i)
          "$sdk.version" = some version)
    ∧ (should_check_cache client opts = true →
        aget (((maybe_check_cache_async remote_cc client now h opts req_payload).2).get i)
          "$sdk" = some "python"
      ∧ aget (((maybe_check_cache_async remote_cc client now h opts req_payload).2).get i)
          "$sdk.version" = some version) := by
  have hmut := get_tags_mutates_heap h opts i htags hne
  refine ⟨?_, ?_, fun hcheck => ?_, fun hcheck => ?_⟩
  · rw [report_heap_eq]
    exact hmut
  · rw [report_async_heap_eq]
    exact hmut
  · rw [maybe_check_cache_heap_eq remote_cc client now h opts req_payload hcheck]
    exact hmut
  · rw [maybe_check_cache_async_heap_eq remote_cc client now h opts req_payload hcheck]
    exact hmut

/-- Witness for C10: a caller whose options reference a one-entry tags dict
at heap address 0, with a configured token and `cache = True`; after each
of the four calls the caller's dict contains the two reserved entries. -/
theorem shared_calls_mutate_caller_tags_witness :
    (aget (((report (fun _ _ => Except.ok ())
          ⟨"https://app.openpipe.ai/api/v1", "sk-token"⟩
          ⟨fun _ => [("prompt_id", "abc")], 1⟩
          { tags := some 0, cache := some true } []).2).get 0) "$sdk"
        = some "python"
      ∧ aget (((report (fun _ _ => Except.ok ())
          ⟨"https://app.openpipe.ai/api/v1", "sk-token"⟩
          ⟨fun _ => [("prompt_id", "abc")], 1⟩
          { tags := some 0, cache := some true } []).2).get 0) "$sdk.version"
        = some version)
    ∧ (aget (((report_async (fun _ _ => Except.ok ())
          ⟨"https://app.openpipe.ai/api/v1", "sk-token"⟩
          ⟨fun _ => [("prompt_id", "abc")], 1⟩
          { tags := some 0, cache := some true } []).2).get 0) "$sdk"
        = some "python"
      ∧ aget (((report_async (fun _ _ => Except.ok ())
          ⟨"https://app.openpipe.ai/api/v1", "sk-token"⟩
          ⟨fun _ => [("prompt_id", "abc")], 1⟩
          { tags := some 0, cache := some true } []).2).get 0) "$sdk.version"
        = some version)
    ∧ (aget (((maybe_check_cache (fun _ _ => Except.ok none)
          ⟨"https://app.openpipe.ai/api/v1", "sk-token"⟩ 0
          ⟨fun _ => [("prompt_id", "abc")], 1⟩
          { tags := some 0, cache := some true } []).2).get 0) "$sdk"
        = some "python"
      ∧ aget (((maybe_check_cache (fun _ _ => Except.ok none)
          ⟨"https://app.openpipe.ai/api/v1", "sk-token"⟩ 0
          ⟨fun _ => [("prompt_id", "abc")], 1⟩
          { tags := some 0, cache := some true } []).2).get 0) "$sdk.version"
        = some version)
    ∧ (aget (((maybe_check_cache_async (fun _ _ => Except.ok none)
          ⟨"https://app.openpipe.ai/api/v1", "sk-token"⟩ 0
          ⟨fun _ => [("prompt_id", "abc")], 1⟩
          { tags := some 0, cache := some true } []).2).get 0) "$sdk"
        = some "python"
      ∧ aget (((maybe_check_cache_async (fun _ _ => Except.ok none)
          ⟨"https://app.openpipe.ai/api/v1", "sk-token"⟩ 0
          ⟨fun _ => [("prompt_id", "abc")], 1⟩
          { tags := some 0, cache := some true } []).2).get 0) "$sdk.version"
        = some version) :=
  have h := shared_calls_mutate_caller_tags (fun _ _ => Except.ok none)
    (fun _ _ => Except.ok ())
    ⟨"https://app.openpipe.ai/api/v1", "sk-token"⟩ 0
    ⟨fun _ => [("prompt_id", "abc")], 1⟩
    { tags := some 0, cache := some true } 0 [] []
    rfl (by simp [Heap.get])
  ⟨h.1, h.2.1, h.2.2.1 rfl, h.2.2.2 rfl⟩

/-- C2: when the configured client's token is the empty string, or the
options' `cache` entry is absent or false, `maybe_check_cache` and
`maybe_check_cache_async` return no result immediately — for every
possible remote operation the result is `none` and the heap is untouched,
so the remote check-cache operation is never invoked. -/
theorem maybe_check_cache_gate
    (remote : AuthenticatedClient → CheckCacheJsonBody →
      Except PyErr (Option CheckCacheResponse200))
    (client : AuthenticatedClient) (now : Int) (h : Heap String)
    (opts : OpenpipeOptions) (req_payload : PyDict Json)
    (hcond : client.token = "" ∨ opts.cache ≠ some true) :
    maybe_check_cache remote client now h opts req_payload = (Except.ok none, h)
    ∧ maybe_check_cache_async remote client now h opts req_payload =
        (Except.ok none, h) := by
  have hfalse : should_check_cache client opts = false := by
    unfold should_check_cache
    rcases hcond with htok | hcache
    · simp [htok]
    · by_cases htok : client.token = ""
      · simp [htok]
      · cases hc : opts.cache with
        | none => simp [htok, hc]
        | some b =>
            cases b
            · simp [htok, hc]
            · rw [hc] at hcache
              exact absurd rfl hcache
  constructor
  · simp [maybe_check_cache, hfalse]
  · simp [maybe_check_cache_async, hfalse]

/-- Witness for C2: with the initial `configured_client` (empty token) and
empty options, both variants return no result and leave the heap alone,
whatever the remote operation would have answered. -/
theorem maybe_check_cache_gate_witness :
    maybe_check_cache (fun _ _ => Except.ok none) configured_client 0
      ⟨fun _ => [], 0⟩ { tags := none, cache := none } [] =
      (Except.ok none, ⟨fun _ => [], 0⟩)
    ∧ maybe_check_cache_async (fun _ _ => Except.ok none) configured_client 0
      ⟨fun _ => [], 0⟩ { tags := none, cache := none } [] =
      (Except.ok none, ⟨fun _ => [], 0⟩) :=
  maybe_check_cache_gate (fun _ _ => Except.ok none) configured_client 0
    ⟨fun _ => [], 0⟩ { tags := none, cache := none } [] (Or.inl rfl)

/-- C1: when the underlying remote operation fails with any exception, the
failure is fully absorbed: `maybe_check_cache` and
`maybe_check_cache_async` return no result, and `report` and
`report_async` complete without raising and without returning a value —
no result is ever `Except.error`, which is how a propagating exception
would surface in this embedding. -/
theorem remote_failures_absorbed
    (remote_cc : AuthenticatedClient → CheckCacheJsonBody →
      Except PyErr (Option CheckCacheResponse200))
    (remote_r : AuthenticatedClient → ReportJsonBody → Except PyErr Unit)
    (client : AuthenticatedClient) (now : Int) (h : Heap String)
    (opts : OpenpipeOptions) (req_payload kwargs : PyDict Json)
    (e₁ e₂ : PyErr)
    (hcc : ∀ c b, remote_cc c b = Except.error e₁)
    (hr : ∀ c b, remote_r c b = Except.error e₂) :
    (maybe_check_cache remote_cc client now h opts req_payload).1 =
      Except.ok none
    ∧ (maybe_check_cache_async remote_cc client now h opts req_payload).1 =
      Except.ok none
    ∧ (report remote_r client h opts kwargs).1 = Except.ok ()
    ∧ (report_async remote_r client h opts kwargs).1 = Except.ok () := by
  refine ⟨?_, ?_, ?_, ?_⟩
  · by_cases hs : should_check_cache client opts
    · simp [maybe_check_cache, hs, hcc]
    · simp [maybe_check_cache, hs]
  · by_cases hs : should_check_cache client opts
    · simp [maybe_check_cache_async, hs, hcc]
    · simp [maybe_check_cache_async, hs]
  · simp [report, hr]
  · simp [report_async, hr]

/-- Witness for C1: a remote that always raises (connection refused for the
cache check, an HTTP 500 for the report) with a configured token and
`cache = True`, so the failing call is actually reached; nothing
propagates. -/
theorem remote_failures_absorbed_witness :
    (maybe_check_cache
        (fun _ _ => Except.error (PyErr.otherError "connection refused"))
        ⟨"https://app.openpipe.ai/api/v1", "sk-token"⟩ 0
        ⟨fun _ => [], 0⟩ { tags := none, cache := some true } []).1 =
      Except.ok none
    ∧ (maybe_check_cache_async
        (fun _ _ => Except.error (PyErr.otherError "connection refused"))
        ⟨"https://app.openpipe.ai/api/v1", "sk-token"⟩ 0
        ⟨fun _ => [], 0⟩ { tags := none, cache := some true } []).1 =
      Except.ok none
    ∧ (report (fun _ _ => Except.error (PyErr.otherError "HTTP 500"))
        ⟨"https://app.openpipe.ai/api/v1", "sk-token"⟩
        ⟨fun _ => [], 0⟩ { tags := none, cache := some true } []).1 =
      Except.ok ()
    ∧ (report_async (fun _ _ => Except.error (PyErr.otherError "HTTP 500"))
        ⟨"https://app.openpipe.ai/api/v1", "sk-token"⟩
        ⟨fun _ => [], 0⟩ { tags := none, cache := some true } []).1 =
      Except.ok () :=
  remote_failures_absorbed
    (fun _ _ => Except.error (PyErr.otherError "connection refused"))
    (fun _ _ => Except.error (PyErr.otherError "HTTP 500"))
    ⟨"https://app.openpipe.ai/api/v1", "sk-token"⟩ 0
    ⟨fun _ => [], 0⟩ { tags := none, cache := some true } [] []
    (PyErr.otherError "connection refused") (PyErr.otherError "HTTP 500")
    (fun _ _ => rfl) (fun _ _ => rfl)

/-- C3: on a successful remote check-cache response, an absent response or
an absent/empty `resp_payload` yields no result, while a non-empty
`resp_payload` is returned with the injected `openpipe` entry carrying `cache_status = "HIT"`; and `maybe_check_cache` returns exactly
`_process_cache_payload` of the decoded response whenever the check is
performed and the remote call succeeds. -/
theorem process_cache_payload_spec :
    process_cache_payload none = none
    ∧ (∀ r : CheckCacheResponse200, r.resp_payload = none →
        process_cache_payload (some r) = none)
    ∧ (∀ r : CheckCacheResponse200, r.resp_payload = some [] →
        process_cache_payload (some r) = none)
    ∧ (∀ (r : CheckCacheResponse200) (d : PyDict Json),
        r.resp_payload = some d → d ≠ [] →
        process_cache_payload (some r) =
          some (ainsert d "openpipe"
            (Json.obj [("cache_status", Json.str "HIT")])))
    ∧ (∀ (remote : AuthenticatedClient → CheckCacheJsonBody →
          Except PyErr (Option CheckCacheResponse200))
        (client : AuthenticatedClient) (now : Int) (h : Heap String)
        (opts : OpenpipeOptions) (req_payload : PyDict Json)
        (payload : Option CheckCacheResponse200),
        should_check_cache client opts = true →
        (∀ c b, remote c b = Except.ok payload) →
        (maybe_check_cache remote client now h opts req_payload).1 =
          Except.ok (process_cache_payload payload)) := by
  refine ⟨rfl, ?_, ?_, ?_, ?_⟩
  · intro r hr
    obtain ⟨rp⟩ := r
    cases hr
    rfl
  · intro r hr
    obtain ⟨rp⟩ := r
    cases hr
    rfl
  · intro r d hr hne
    obtain ⟨rp⟩ := r
    cases hr
    cases d with
    | nil => exact absurd rfl hne
    | cons p rest => simp [process_cache_payload]
  · intro remote client now h opts req_payload payload hcheck hremote
    simp [maybe_check_cache, hcheck, hremote]

/-- Witness for C3: the spec's example — a simulated response whose
`resp_payload` is the one-entry dict mapping `foo` to `bar` comes back as
that dict extended with the injected `openpipe` cache-status entry. -/
theorem process_cache_payload_spec_witness :
    process_cache_payload
        (some { resp_payload := some [("foo", Json.str "bar")] }) =
      some [("foo", Json.str "bar"),
            ("openpipe", Json.obj [("cache_status", Json.str "HIT")])] :=
  process_cache_payload_spec.2.2.2.1
    { resp_payload := some [("foo", Json.str "bar")] }
    [("foo", Json.str "bar")] rfl (List.cons_ne_nil _ _)
